import Mathlib

/-!
Verification of the Aerotech motor facade (`pcdsdevices/epics/aerotech.py`).

The module is configuration-style glue over an EPICS positioner: eight
remote-value bindings declared with fixed address suffixes, a power guard
on `move`, one-line enable/disable/clear/reconfig writers, and two boolean
queries (`enabled`, `faulted`).

Embedding: the last-known values of the readable signals form a
`FacadeState`.  Operations that touch the remote layer return, besides
their result, the list of remote events (`Event`) they issue: a `put` for
each `Signal.set` call and whatever events the delegated base-positioner
move issues.  `AeroBase.move` is parametrized by the inherited
`EpicsMotor.move` (`superMove`), which lives outside this module.
-/

/-- The eight named remote-value bindings declared on `AeroBase`
(the two `FakeSignal` limit-switch stubs carry no address and are not
remote bindings). -/
inductive Binding where
  | power
  | retries
  | retries_max
  | retries_deadband
  | axis_fault
  | axis_status
  | clear_error
  | config
deriving DecidableEq, Repr

/-- A remote event issued by a facade operation: a `put` is a `.set` write
on one binding; `remoteMove` stands for a motion request issued by the
delegated base-positioner move. -/
inductive Event where
  | put (target : Binding) (value : Int)
  | remoteMove
deriving DecidableEq, Repr

/-- The pending-operation handle (ophyd `Status` object) returned by a
`Signal.set` write: it identifies the single write it tracks. -/
structure SetStatus where
  target : Binding
  value : Int
deriving DecidableEq, Repr

/-- Modelled from the spec: the external Remote Value Binding's
`.set(value)` operation (missing from `src/`, it lives in the signal
layer) — it issues exactly one write to the bound address and returns the
pending-operation handle of that write. -/
def Signal.set (b : Binding) (v : Int) : SetStatus × List Event :=
  (SetStatus.mk b v, [Event.put b v])

/-- Last-known values of the readable signals of one facade instance.
Reading `.value` returns the cached value and issues no remote event. -/
structure FacadeState where
  power_value : Int
  axis_fault_value : Int
deriving DecidableEq, Repr

/-- `AeroBase.enabled`: `return bool(self.power.value)` — true iff the
last-known `power` value is nonzero; the body contains no `.set`, so no
event is issued. -/
def AeroBase.enabled (s : FacadeState) : Bool × List Event :=
  (decide (s.power_value ≠ 0), [])

/-- `AeroBase.faulted`: `return bool(self.axis_fault.value)` — true iff the
last-known `axis_fault` value is nonzero; no event is issued. -/
def AeroBase.faulted (s : FacadeState) : Bool × List Event :=
  (decide (s.axis_fault_value ≠ 0), [])

/-- The module's exception hierarchy: `AerotechException` with its single
subclass `MotorDisabled`, carrying the error message. -/
inductive AerotechException where
  | MotorDisabled (msg : String)
deriving DecidableEq, Repr

/-- `AeroBase.move`: checks `self.enabled` first; if disabled it raises
`MotorDisabled` (issuing nothing), otherwise it delegates to
`super().move(position, *args, **kwargs)` with the same arguments and
returns the base positioner's handle unmodified.  `superMove` is the
inherited `EpicsMotor.move`, external to this module, returning its handle
and the remote events it issues. -/
def AeroBase.move {α ε β : Type} (s : FacadeState)
    (superMove : α → ε → β × List Event) (position : α) (extra : ε) :
    Except AerotechException β × List Event :=
  let en := AeroBase.enabled s
  if en.1 = false then
    (Except.error (AerotechException.MotorDisabled
       "Motor must be enabled before moving."), en.2)
  else
    let st := superMove position extra
    (Except.ok st.1, en.2 ++ st.2)

/-- `AeroBase.enable`: `return self.power.set(1)`. -/
def AeroBase.enable : SetStatus × List Event :=
  Signal.set Binding.power 1

/-- `AeroBase.disable`: `return self.power.set(0)`. -/
def AeroBase.disable : SetStatus × List Event :=
  Signal.set Binding.power 0

/-- `AeroBase.clear`: `return self.clear_error.set(1)`. -/
def AeroBase.clear : SetStatus × List Event :=
  Signal.set Binding.clear_error 1

/-- `AeroBase.reconfig`: `return self.config.set(1)`. -/
def AeroBase.reconfig : SetStatus × List Event :=
  Signal.set Binding.config 1

/-- The fixed address suffix each binding is declared with in the
`Component` table of `AeroBase`. -/
def suffixOf : Binding → String
  | Binding.power => ".CNEN"
  | Binding.retries => ".RCNT"
  | Binding.retries_max => ".RTRY"
  | Binding.retries_deadband => ".RDBD"
  | Binding.axis_fault => ":AXIS_FAULT"
  | Binding.axis_status => ":AXIS_STATUS"
  | Binding.clear_error => ":CLEAR"
  | Binding.config => ":CONFIG"

/-- Modelled from the spec: `Component` resolution (the component module is
missing from `src/`) appends the component's declared suffix to the device
prefix string at construction time to obtain the remote address. -/
def pvAddress (pfx : String) (b : Binding) : String :=
  pfx ++ suffixOf b

/-- `AeroBase.__init__`: after `super().__init__`, executes
`self.configuration_attrs.append("power")` on the registry inherited from
the base positioner (the inherited registry is a parameter, its contents
being external to this module). -/
def AeroBase.init_configuration_attrs (inherited : List String) : List String :=
  inherited ++ ["power"]

/-- The errors the base positioner's move is documented to raise
(`TimeoutError`, `ValueError`, `RuntimeError`); they originate outside this
module and propagate unchanged. -/
inductive BaseMoveError where
  | TimeoutError
  | ValueError
  | RuntimeError
deriving DecidableEq, Repr

/-- `RotationAero` subclasses `AeroBase` with body `pass`: every operation
is the inherited one. -/
def RotationAero.move {α ε β : Type} := @AeroBase.move α ε β

def RotationAero.enable := AeroBase.enable

def RotationAero.disable := AeroBase.disable

def RotationAero.enabled := AeroBase.enabled

def RotationAero.clear := AeroBase.clear

def RotationAero.reconfig := AeroBase.reconfig

def RotationAero.faulted := AeroBase.faulted

/-- `LinearAero` subclasses `AeroBase` with body `pass`: every operation
is the inherited one. -/
def LinearAero.move {α ε β : Type} := @AeroBase.move α ε β

def LinearAero.enable := AeroBase.enable

def LinearAero.disable := AeroBase.disable

def LinearAero.enabled := AeroBase.enabled

def LinearAero.clear := AeroBase.clear

def LinearAero.reconfig := AeroBase.reconfig

def LinearAero.faulted := AeroBase.faulted

/-- `DiodeAero` subclasses `AeroBase` with body `pass`: every operation
is the inherited one. -/
def DiodeAero.move {α ε β : Type} := @AeroBase.move α ε β

def DiodeAero.enable := AeroBase.enable

def DiodeAero.disable := AeroBase.disable

def DiodeAero.enabled := AeroBase.enabled

def DiodeAero.clear := AeroBase.clear

def DiodeAero.reconfig := AeroBase.reconfig

def DiodeAero.faulted := AeroBase.faulted

/-- C1: for every facade whose last-known `power` value is falsy (zero),
`move` at any position — whatever the base positioner's move would do —
fails with the `MotorDisabled` error and issues no remote event at all
(in particular no remote move request). -/
theorem aerotech_C1_move_disabled {α ε β : Type} (s : FacadeState)
    (h : s.power_value = 0)
    (superMove : α → ε → β × List Event) (position : α) (extra : ε) :
    AeroBase.move s superMove position extra =
      (Except.error (AerotechException.MotorDisabled
        "Motor must be enabled before moving."), []) := by
  simp [AeroBase.move, AeroBase.enabled, h]

/-- C1 witness: a concrete disabled facade at position 5, with a base move
that would issue a remote move request, yields `MotorDisabled` and an
empty event trace. -/
theorem aerotech_C1_move_disabled_witness :
    FacadeState.power_value (FacadeState.mk 0 0) = 0 ∧
    AeroBase.move (FacadeState.mk 0 0)
        (fun (_ : Int) (_ : Unit) => ((37 : Nat), [Event.remoteMove])) 5 () =
      (Except.error (AerotechException.MotorDisabled
        "Motor must be enabled before moving."), []) :=
  ⟨rfl, aerotech_C1_move_disabled (FacadeState.mk 0 0) rfl
    (fun (_ : Int) (_ : Unit) => ((37 : Nat), [Event.remoteMove])) 5 ()⟩

/-- C2: for every facade whose last-known `power` value is nonzero, `move`
delegates to the base positioner's move with exactly the same arguments
(position and extra arguments) and returns its pending-operation handle
unmodified, issuing exactly the events of the delegated move. -/
theorem aerotech_C2_move_delegates {α ε β : Type} (s : FacadeState)
    (h : s.power_value ≠ 0)
    (superMove : α → ε → β × List Event) (position : α) (extra : ε) :
    AeroBase.move s superMove position extra =
      (Except.ok (superMove position extra).1, (superMove position extra).2) := by
  simp [AeroBase.move, AeroBase.enabled, h]

/-- C2 witness: a concrete enabled facade delegates `move 5` to the base
move and returns its handle and events unchanged. -/
theorem aerotech_C2_move_delegates_witness :
    FacadeState.power_value (FacadeState.mk 1 0) ≠ 0 ∧
    AeroBase.move (FacadeState.mk 1 0)
        (fun (p : Int) (_ : Unit) => ((p + 2, [Event.remoteMove]) : Int × List Event)) 5 () =
      (Except.ok 7, [Event.remoteMove]) :=
  ⟨by decide, aerotech_C2_move_delegates (FacadeState.mk 1 0) (by decide)
    (fun (p : Int) (_ : Unit) => ((p + 2, [Event.remoteMove]) : Int × List Event)) 5 ()⟩

/-- C3: for every facade state, `enabled` returns true iff the last-known
`power` value is nonzero (so false at 0, true at 1 and at any other
nonzero value), and issues no remote event. -/
theorem aerotech_C3_enabled_iff (s : FacadeState) :
    ((AeroBase.enabled s).1 = true ↔ s.power_value ≠ 0) ∧
      (AeroBase.enabled s).2 = [] := by
  constructor
  · simp [AeroBase.enabled]
  · rfl

/-- C4: for every device-prefix string, the eight bindings resolve to the
prefix followed by exactly the fixed suffixes `.CNEN`, `.RCNT`, `.RTRY`,
`.RDBD`, `:AXIS_FAULT`, `:AXIS_STATUS`, `:CLEAR`, `:CONFIG`. -/
theorem aerotech_C4_pv_addresses (pfx : String) :
    pvAddress pfx Binding.power = pfx ++ ".CNEN" ∧
    pvAddress pfx Binding.retries = pfx ++ ".RCNT" ∧
    pvAddress pfx Binding.retries_max = pfx ++ ".RTRY" ∧
    pvAddress pfx Binding.retries_deadband = pfx ++ ".RDBD" ∧
    pvAddress pfx Binding.axis_fault = pfx ++ ":AXIS_FAULT" ∧
    pvAddress pfx Binding.axis_status = pfx ++ ":AXIS_STATUS" ∧
    pvAddress pfx Binding.clear_error = pfx ++ ":CLEAR" ∧
    pvAddress pfx Binding.config = pfx ++ ":CONFIG" :=
  ⟨rfl, rfl, rfl, rfl, rfl, rfl, rfl, rfl⟩

/-- C5: `enable()` issues exactly one write, of value 1 to the `power`
binding, and returns that single write's pending-operation handle;
`disable()` likewise writes exactly 0 to `power`. -/
theorem aerotech_C5_enable_disable :
    AeroBase.enable = (SetStatus.mk Binding.power 1, [Event.put Binding.power 1]) ∧
    AeroBase.disable = (SetStatus.mk Binding.power 0, [Event.put Binding.power 0]) :=
  ⟨rfl, rfl⟩

/-- C6: `clear()` issues exactly one write, of value 1 to the
`clear_error` binding, and `reconfig()` exactly one write of value 1 to
the `config` binding, each returning that single write's handle. -/
theorem aerotech_C6_clear_reconfig :
    AeroBase.clear =
      (SetStatus.mk Binding.clear_error 1, [Event.put Binding.clear_error 1]) ∧
    AeroBase.reconfig =
      (SetStatus.mk Binding.config 1, [Event.put Binding.config 1]) :=
  ⟨rfl, rfl⟩

/-- C7: for every facade state, `faulted` returns true iff the last-known
`axis_fault` value is nonzero, and issues no remote event. -/
theorem aerotech_C7_faulted_iff (s : FacadeState) :
    ((AeroBase.faulted s).1 = true ↔ s.axis_fault_value ≠ 0) ∧
      (AeroBase.faulted s).2 = [] := by
  constructor
  · simp [AeroBase.faulted]
  · rfl

/-- C8: for every inherited configuration-attribute registry, construction
appends `"power"`, so afterwards the registry contains `"power"` (and it
is exactly the inherited registry with `"power"` appended). -/
theorem aerotech_C8_configuration_attrs (inherited : List String) :
    "power" ∈ AeroBase.init_configuration_attrs inherited ∧
      AeroBase.init_configuration_attrs inherited = inherited ++ ["power"] := by
  constructor
  · simp [AeroBase.init_configuration_attrs]
  · rfl

/-- C9: the three specializations RotationAero, LinearAero and DiodeAero
are behaviorally identical to AeroBase: each of their seven operations is
the base operation itself, hence agrees with it on every input. -/
theorem aerotech_C9_subclasses_identical :
    @RotationAero.move = @AeroBase.move ∧
    RotationAero.enable = AeroBase.enable ∧
    RotationAero.disable = AeroBase.disable ∧
    RotationAero.enabled = AeroBase.enabled ∧
    RotationAero.clear = AeroBase.clear ∧
    RotationAero.reconfig = AeroBase.reconfig ∧
    RotationAero.faulted = AeroBase.faulted ∧
    @LinearAero.move = @AeroBase.move ∧
    LinearAero.enable = AeroBase.enable ∧
    LinearAero.disable = AeroBase.disable ∧
    LinearAero.enabled = AeroBase.enabled ∧
    LinearAero.clear = AeroBase.clear ∧
    LinearAero.reconfig = AeroBase.reconfig ∧
    LinearAero.faulted = AeroBase.faulted ∧
    @DiodeAero.move = @AeroBase.move ∧
    DiodeAero.enable = AeroBase.enable ∧
    DiodeAero.disable = AeroBase.disable ∧
    DiodeAero.enabled = AeroBase.enabled ∧
    DiodeAero.clear = AeroBase.clear ∧
    DiodeAero.reconfig = AeroBase.reconfig ∧
    DiodeAero.faulted = AeroBase.faulted :=
  ⟨rfl, rfl, rfl, rfl, rfl, rfl, rfl, rfl, rfl, rfl, rfl, rfl, rfl, rfl,
   rfl, rfl, rfl, rfl, rfl, rfl, rfl⟩

/-- C10: when the last-known `power` value is falsy, the enable check in
`move` precedes all delegation: whatever the base positioner's move would
return — including the `ValueError`, `TimeoutError` or `RuntimeError`
outcomes it is documented to raise — the result is the `MotorDisabled`
error with no remote event, so no base-positioner outcome is reachable. -/
theorem aerotech_C10_guard_precedes {α ε β : Type} (s : FacadeState)
    (h : s.power_value = 0)
    (superMove : α → ε → Except BaseMoveError β × List Event)
    (position : α) (extra : ε) :
    AeroBase.move s superMove position extra =
      (Except.error (AerotechException.MotorDisabled
        "Motor must be enabled before moving."), []) ∧
    ∀ e : BaseMoveError,
      (AeroBase.move s superMove position extra).1 ≠ Except.ok (Except.error e) := by
  have hmain : AeroBase.move s superMove position extra =
      (Except.error (AerotechException.MotorDisabled
        "Motor must be enabled before moving."), []) := by
    simp [AeroBase.move, AeroBase.enabled, h]
  refine ⟨hmain, ?_⟩
  intro e
  rw [hmain]
  simp

/-- C10 witness: with power at 0 and a base move that would raise
`ValueError`, `move 5` still yields `MotorDisabled` and an empty trace,
and never the `ValueError` outcome. -/
theorem aerotech_C10_guard_precedes_witness :
    FacadeState.power_value (FacadeState.mk 0 0) = 0 ∧
    AeroBase.move (FacadeState.mk 0 0)
        (fun (_ : Int) (_ : Unit) =>
          ((Except.error BaseMoveError.ValueError : Except BaseMoveError Nat),
            [Event.remoteMove])) 5 () =
      (Except.error (AerotechException.MotorDisabled
        "Motor must be enabled before moving."), []) :=
  ⟨rfl, (aerotech_C10_guard_precedes (FacadeState.mk 0 0) rfl
    (fun (_ : Int) (_ : Unit) =>
      ((Except.error BaseMoveError.ValueError : Except BaseMoveError Nat),
        [Event.remoteMove])) 5 ()).1⟩
